import Mathlib

/-!
Verification development for the construction-site monitoring core:
a shallow embedding of `app/utils/detection.py` (SafetyGearDetector,
ProximityDetector) and `app/utils/camera.py` (IPCamera, CameraManager),
with theorems settling the specification claims about hysteresis,
cooldown de-duplication, emission order, frame delivery and locking.
-/

namespace SiteMonitor

/-- Symbolic image values.  Pixel-level content produced by OpenCV calls is
opaque to every property verified here; an `Img` records how a frame was
built: `zeros h w c` for `np.zeros((h, w, c))`, `live n` for an abstract
decoded camera frame, and `text`, `rect`, `line`, `fill` for the cv2
drawing primitives applied to a base image (geometric and colour arguments
of the drawing calls are abstracted away, only the drawn text is kept). -/
inductive Img where
  | zeros (h w c : Nat)
  | live (n : Nat)
  | text (base : Img) (s : String)
  | rect (base : Img)
  | line (base : Img)
  | fill (base : Img)
deriving DecidableEq, Repr

/-- A pixel-space bounding box `(x, y, w, h)` as returned by
`hog.detectMultiScale` and `cv2.boundingRect`. -/
structure Box where
  x : Nat
  y : Nat
  w : Nat
  h : Nat
deriving DecidableEq, Repr

/-- Lookup in an association list; embeds Python dict read. -/
def alookup {κ β : Type} [DecidableEq κ] : List (κ × β) → κ → Option β
  | [], _ => none
  | p :: r, k => if p.1 = k then some p.2 else alookup r k

/-- Deletion of a key from an association list; embeds Python `del d[k]`
(and is the identity when the key is absent). -/
def adel {κ β : Type} [DecidableEq κ] : List (κ × β) → κ → List (κ × β)
  | [], _ => []
  | p :: r, k => if p.1 = k then adel r k else p :: adel r k

/-- Update of a key in an association list; embeds Python `d[k] = v`.
Binding order is irrelevant: no code under verification iterates a dict. -/
def aset {κ β : Type} [DecidableEq κ] (l : List (κ × β)) (k : κ) (v : β) : List (κ × β) :=
  (k, v) :: adel l k

/-- Python `round(q, 1)`: round to one decimal digit, ties to even
(banker rounding), exactly on rationals. -/
def pyRound1 (q : ℚ) : ℚ :=
  let s := q * 10
  let f : ℤ := ⌊s⌋
  let r := s - f
  let n : ℤ :=
    if r < 1/2 then f
    else if 1/2 < r then f + 1
    else if 2 ∣ f then f else f + 1
  (n : ℚ) / 10

/-! ## SafetyGearDetector (app/utils/detection.py)

The HOG person detector and `_analyze_safety_gear` are the pixel-level
vision boundary: `sgDetect` takes their outputs as parameters (`boxes`
with `weights` from `hog.detectMultiScale`, `analyze` giving the
missing-gear list of a person box).  Wall-clock reads are passed in:
`current_time` for `time.time()`, `nowIso` for
`datetime.now().isoformat()`, `nowStamp` for the strftime tag.  `saveOk`
stands for success of the `cv2.imwrite` call inside
`_capture_violation_screenshot`. -/

/-- The violation dict built by `SafetyGearDetector.detect`.  The source
field `duration` holds `round(violation_duration, 1)`. -/
structure ViolationData where
  worker_id : String
  missing_gear : List String
  duration : ℚ
  screenshot : Option String
  timestamp : String
  camera_id : Nat
deriving DecidableEq, Repr

/-- State of a `SafetyGearDetector` instance.  `violation_time` is the
nested defaultdict `{camera_id: {worker_id: start_time}}` flattened to
keys `(camera_id, worker_id)` (it is only ever read and written
pointwise, never iterated). -/
structure SGState where
  violation_time : List ((Nat × String) × ℚ)
  alert_threshold : ℚ
  violation_history : List ViolationData
deriving DecidableEq, Repr

/-- State after `SafetyGearDetector.__init__`. -/
def SGState.init : SGState := { violation_time := [], alert_threshold := 3, violation_history := [] }

/-- The per-frame worker pseudo-identity string used by both detectors. -/
def workerId (camera_id : Nat) (i : Nat) : String :=
  "worker_" ++ toString camera_id ++ "_" ++ toString i

/-- Embeds `_capture_violation_screenshot` (shared shape between both
detector classes): on `cv2.imwrite` success the web path of the saved
file, on failure the exception is caught and `None` is returned. -/
def captureViolationScreenshot (saveOk : Bool) (camera_id : Nat)
    (worker_id violation_type stamp : String) : Option String :=
  let filename := violation_type ++ "_" ++ toString camera_id ++ "_" ++ worker_id ++ "_"
      ++ stamp ++ ".jpg"
  if saveOk then some ("/static/violations/" ++ violation_type ++ "/" ++ filename) else none

/-- Confidence filtering shared by both `detect` methods: keep the boxes
whose paired weight exceeds 0.5. -/
def validBoxes (boxes : List Box) (weights : List ℚ) : List Box :=
  ((boxes.zip weights).filter (fun bw => 1/2 < bw.2)).map Prod.fst

/-- One iteration of the person loop in `SafetyGearDetector.detect`
(lines 77-132), for the enumerated person `(i, b)`.  The accumulator
carries the frame being drawn on, the violations list and the detector
state. -/
def sgStep (camera_id : Nat) (analyze : Box → List String) (current_time : ℚ)
    (saveOk : Bool) (nowIso nowStamp : String)
    (acc : Img × List ViolationData × SGState) (ib : Nat × Box) :
    Img × List ViolationData × SGState :=
  let frame := acc.1
  let violations := acc.2.1
  let st := acc.2.2
  let i := ib.1
  let wid := workerId camera_id i
  let missing := analyze ib.2
  let res :=
    if missing ≠ [] then
      let vt :=
        if alookup st.violation_time (camera_id, wid) = none
        then aset st.violation_time (camera_id, wid) current_time
        else st.violation_time
      -- the key is present in vt by construction, so the default is unreachable
      let start := (alookup vt (camera_id, wid)).getD current_time
      let dur := current_time - start
      if st.alert_threshold ≤ dur then
        let shot := captureViolationScreenshot saveOk camera_id wid "safety_gear" nowStamp
        let v : ViolationData :=
          { worker_id := wid, missing_gear := missing, duration := pyRound1 dur,
            screenshot := shot, timestamp := nowIso, camera_id := camera_id }
        (Img.text frame ("VIOLATION: " ++ toString (pyRound1 dur) ++ "s"),
         violations ++ [v],
         { st with violation_time := vt, violation_history := st.violation_history ++ [v] })
      else
        (frame, violations, { st with violation_time := vt })
    else
      -- `del` guarded by a membership test in the source; adel is the
      -- identity on an absent key, so the guard is absorbed
      (frame, violations, { st with violation_time := adel st.violation_time (camera_id, wid) })
  let frame2 := Img.text (Img.rect res.1) ("Worker " ++ toString (i + 1))
  let frame3 := if missing ≠ [] then Img.text frame2 ("Missing: " ++ ", ".intercalate missing)
                else frame2
  (frame3, res.2.1, res.2.2)

/-- Embeds `SafetyGearDetector.detect`.  `hogLoaded` is whether
`load_model` succeeded (`self.hog is not None`). -/
def sgDetect (hogLoaded : Bool) (st : SGState) (frame : Img) (camera_id : Nat)
    (boxes : List Box) (weights : List ℚ) (analyze : Box → List String)
    (current_time : ℚ) (saveOk : Bool) (nowIso nowStamp : String) :
    Img × List ViolationData × SGState :=
  if hogLoaded then
    ((validBoxes boxes weights).enum).foldl
      (sgStep camera_id analyze current_time saveOk nowIso nowStamp) (frame, [], st)
  else
    (frame, [], st)

/-! ## ProximityDetector (app/utils/detection.py)

Machinery contour extraction and HOG person detection are the vision
boundary and are passed in as box lists.  The source compares
`np.sqrt(dx**2 + dy**2) < proximity_threshold`; both sides are
nonnegative and the square root is strictly monotone on nonnegatives, so
the embedding compares the squared distance against the squared
threshold, staying in exact integer arithmetic.  Alert records keep the
squared distance (`dist_sq`) where the source stores
`round(sqrt(dist_sq), 2)`; no claim under verification depends on the
numeric value of that field. -/

/-- The alert dict built by `ProximityDetector.detect`. -/
structure AlertData where
  worker_id : String
  machine_id : String
  dist_sq : ℤ
  screenshot : Option String
  timestamp : String
  camera_id : Nat
deriving DecidableEq, Repr

/-- State of a `ProximityDetector` instance.  `alert_history` is the
nested defaultdict `{camera_id: {key: last_alert_time}}` flattened to
keys `(camera_id, key)`. -/
structure ProxState where
  proximity_threshold : ℤ
  machinery_positions : List (Nat × List Box)
  alert_history : List ((Nat × String) × ℚ)
  alert_cooldown : ℚ
  violation_history : List AlertData
deriving DecidableEq, Repr

/-- State after `ProximityDetector.__init__`. -/
def ProxState.init : ProxState :=
  { proximity_threshold := 80, machinery_positions := [], alert_history := [],
    alert_cooldown := 5, violation_history := [] }

/-- Center of a box: `(x + w//2, y + h//2)` with Python floor division
(all coordinates are nonnegative machine integers). -/
def centerOf (b : Box) : ℤ × ℤ := ((b.x + b.w / 2 : Nat), (b.y + b.h / 2 : Nat))

/-- Squared Euclidean distance between two centers. -/
def distSq (p q : ℤ × ℤ) : ℤ := (p.1 - q.1) ^ 2 + (p.2 - q.2) ^ 2

/-- The cooldown key `f"{worker_id}_machine_{j}"`. -/
def proxKey (camera_id : Nat) (i j : Nat) : String :=
  workerId camera_id i ++ "_machine_" ++ toString j

/-- The alert dict for worker `i` (box `wb`) and machine `j` (box `mb`);
all fields are functions of the pair and the call parameters only. -/
def mkProxAlert (camera_id : Nat) (i : Nat) (wb : Box) (j : Nat) (mb : Box)
    (saveOk : Bool) (nowIso nowStamp : String) : AlertData :=
  { worker_id := workerId camera_id i,
    machine_id := "machine_" ++ toString camera_id ++ "_" ++ toString j,
    dist_sq := distSq (centerOf wb) (centerOf mb),
    screenshot := captureViolationScreenshot saveOk camera_id (workerId camera_id i)
        "proximity" nowStamp,
    timestamp := nowIso, camera_id := camera_id }

/-- One iteration of the inner machinery loop of
`ProximityDetector.detect` (lines 243-285) for worker `(i, wb)` and the
enumerated machine `(j, mb)`. -/
def proxInner (camera_id : Nat) (current_time : ℚ) (saveOk : Bool) (nowIso nowStamp : String)
    (i : Nat) (wb : Box) (acc : Img × List AlertData × ProxState) (jm : Nat × Box) :
    Img × List AlertData × ProxState :=
  let frame := acc.1
  let alerts := acc.2.1
  let st := acc.2.2
  let d2 := distSq (centerOf wb) (centerOf jm.2)
  if d2 < st.proximity_threshold ^ 2 then
    let key := proxKey camera_id i jm.1
    let last := (alookup st.alert_history (camera_id, key)).getD 0
    if st.alert_cooldown ≤ current_time - last then
      let a := mkProxAlert camera_id i wb jm.1 jm.2 saveOk nowIso nowStamp
      (Img.text (Img.line frame) "PROXIMITY ALERT!",
       alerts ++ [a],
       { st with violation_history := st.violation_history ++ [a],
                 alert_history := aset st.alert_history (camera_id, key) current_time })
    else acc
  else acc

/-- One iteration of the outer worker loop of `ProximityDetector.detect`
(lines 233-285) for the enumerated worker `(i, wb)`, given the machinery
list returned by `_detect_machinery`. -/
def proxOuter (camera_id : Nat) (current_time : ℚ) (saveOk : Bool) (nowIso nowStamp : String)
    (machinery : List Box) (acc : Img × List AlertData × ProxState) (iw : Nat × Box) :
    Img × List AlertData × ProxState :=
  let frame1 := Img.text (Img.rect acc.1) ("Worker " ++ toString (iw.1 + 1))
  (machinery.enum).foldl (proxInner camera_id current_time saveOk nowIso nowStamp iw.1 iw.2)
    (frame1, acc.2.1, acc.2.2)

/-- Embeds `ProximityDetector._detect_machinery`: contour extraction is
the vision boundary (`machineryDet` is its filtered result); the method
draws one box per machine and stores the list in
`machinery_positions[camera_id]`. -/
def detectMachinery (st : ProxState) (frame : Img) (camera_id : Nat)
    (machineryDet : List Box) : Img × List Box × ProxState :=
  let frame' := machineryDet.foldl
    (fun f _jm => Img.text (Img.rect f) "Machinery") frame
  (frame', machineryDet,
   { st with machinery_positions := aset st.machinery_positions camera_id machineryDet })

/-- Embeds `ProximityDetector.detect`. -/
def pDetect (st : ProxState) (frame : Img) (camera_id : Nat) (machineryDet : List Box)
    (boxes : List Box) (weights : List ℚ) (current_time : ℚ) (saveOk : Bool)
    (nowIso nowStamp : String) : Img × List AlertData × ProxState :=
  let md := detectMachinery st frame camera_id machineryDet
  ((validBoxes boxes weights).enum).foldl
    (proxOuter camera_id current_time saveOk nowIso nowStamp md.2.1) (md.1, [], md.2.2)

/-- Modelled from the spec (§4.4 ordering): the full worker-major,
machine-minor enumeration of candidate alert records, used to state that
the emission order of `pDetect` follows subject index ascending then
machine index ascending. -/
def specOrderedAlerts (camera_id : Nat) (valid machinery : List Box) (saveOk : Bool)
    (nowIso nowStamp : String) : List AlertData :=
  valid.enum.flatMap (fun iw =>
    machinery.enum.map (fun jm => mkProxAlert camera_id iw.1 iw.2 jm.1 jm.2 saveOk nowIso nowStamp))

/-! ## IPCamera and CameraManager (app/utils/camera.py)

Numpy frames are mutable buffers; to state copy-on-read facts the model
carries an explicit frame heap: a cell index stands for a numpy array
object, `FrameHeap.write` for in-place mutation of that array.
`IPCamera.get_frame` allocates a fresh cell both for the placeholder
(`np.zeros` plus `putText`) and for `self.last_frame.copy()`. -/

/-- A heap of numpy frame buffers; the index of a cell is the object
identity of the array. -/
structure FrameHeap where
  cells : List Img
deriving DecidableEq, Repr

/-- Allocate a new frame buffer, returning the heap and the new index. -/
def FrameHeap.alloc (h : FrameHeap) (v : Img) : FrameHeap × Nat :=
  (⟨h.cells ++ [v]⟩, h.cells.length)

/-- Read a frame buffer. -/
def FrameHeap.read (h : FrameHeap) (r : Nat) : Option Img := h.cells[r]?

/-- Mutate a frame buffer in place (what a caller drawing on a returned
frame would do). -/
def FrameHeap.write (h : FrameHeap) (r : Nat) (v : Img) : FrameHeap :=
  ⟨h.cells.set r v⟩

/-- State of an `IPCamera` object.  `cap_open` models
`self.cap.isOpened()`, `last_frame` is the reference to the most recent
published buffer (`None` until the fetch loop first publishes). -/
structure IPCameraState where
  url : String
  name : String
  cap_open : Bool
  last_frame : Option Nat
  last_accessed : ℚ
  is_running : Bool
  use_fallback : Bool
  fallback_frames : List Img
  fallback_index : Nat
  fallback_last_time : ℚ
deriving DecidableEq, Repr

/-- The synthetic frame built by `_setup_fallback`: dark-gray fill, three
status texts and a border rectangle. -/
def offlineFrame (name : String) : Img :=
  Img.rect (Img.text (Img.text (Img.text (Img.fill (Img.zeros 480 640 3))
    (name ++ " - OFFLINE")) "Camera not connected") "Please check camera connection")

/-- Embeds `_setup_fallback` (state effect; the spawned fallback thread
is modelled separately). -/
def setupFallback (cam : IPCameraState) : IPCameraState :=
  { cam with use_fallback := true, is_running := true,
             fallback_frames := [offlineFrame cam.name] }

/-- Embeds `IPCamera.connect`, with `openOk` the result of
`cv2.VideoCapture(url).isOpened()`: on success the fetch thread is
started with `is_running = True`; on failure (or exception) the camera
degrades to fallback mode. -/
def IPCamera.connect (cam : IPCameraState) (openOk : Bool) : IPCameraState :=
  if openOk then { cam with cap_open := true, is_running := true }
  else setupFallback { cam with cap_open := false }

/-- Embeds `IPCamera.__init__` (field initialisation then `connect`);
`now` is the `time.time()` read. -/
def mkIPCamera (url : String) (name : Option String) (selfId : Nat) (now : ℚ)
    (openOk : Bool) : IPCameraState :=
  IPCamera.connect
    { url := url, name := name.getD ("Camera-" ++ toString selfId), cap_open := false,
      last_frame := none, last_accessed := now, is_running := false, use_fallback := false,
      fallback_frames := [], fallback_index := 0, fallback_last_time := 0 } openOk

/-- The frame built by `get_frame` when no frame has ever been produced:
`np.zeros((480, 640, 3))` tagged with the camera name. -/
def noFramePlaceholder (name : String) : Img :=
  Img.text (Img.zeros 480 640 3) (name ++ " - No Frame Available")

/-- Embeds `IPCamera.get_frame`: under the lock, either a fresh
placeholder buffer, or a fresh copy (`.copy()`) of the internal
`last_frame` buffer.  The `getD` default is unreachable for a valid
internal reference. -/
def get_frame (h : FrameHeap) (cam : IPCameraState) : FrameHeap × Nat :=
  match cam.last_frame with
  | none => h.alloc (noFramePlaceholder cam.name)
  | some r => h.alloc ((h.read r).getD (Img.zeros 0 0 0))

/-- Embeds `IPCamera.release`: stop the loop flag and release the decode
handle. -/
def IPCamera.release (cam : IPCameraState) : IPCameraState :=
  { cam with is_running := false, cap_open := false }

/-- A heap of `IPCamera` objects; an index stands for object identity,
so that a camera replaced in the manager dict can still be observed. -/
structure CamHeap where
  cells : List IPCameraState
deriving DecidableEq, Repr

/-- Allocate a camera object. -/
def CamHeap.alloc (h : CamHeap) (c : IPCameraState) : CamHeap × Nat :=
  (⟨h.cells ++ [c]⟩, h.cells.length)

/-- Read a camera object. -/
def CamHeap.read (h : CamHeap) (r : Nat) : Option IPCameraState := h.cells[r]?

def modifyAt : List IPCameraState → Nat → (IPCameraState → IPCameraState) → List IPCameraState
  | [], _, _ => []
  | c :: r, 0, f => f c :: r
  | c :: r, n + 1, f => c :: modifyAt r n f

/-- Mutate a camera object in place. -/
def CamHeap.modify (h : CamHeap) (r : Nat) (f : IPCameraState → IPCameraState) : CamHeap :=
  ⟨modifyAt h.cells r f⟩

/-- The `CameraManager` registry: `cameras` maps camera ids to camera
object references. -/
structure CameraManager where
  cameras : List (Nat × Nat)
deriving DecidableEq, Repr

/-- Embeds `CameraManager.add_camera`: construct the `IPCamera` and
store it under `camera_id`, returning `True`.  (`IPCamera.__init__`
catches connection errors internally, so the `except` branch returning
`False` is unreachable.) -/
def add_camera (h : CamHeap) (mgr : CameraManager) (camera_id : Nat) (url : String)
    (name : Option String) (now : ℚ) (openOk : Bool) : CamHeap × CameraManager × Bool :=
  let cam := mkIPCamera url (some (name.getD ("Camera-" ++ toString camera_id)))
      h.cells.length now openOk
  let ar := h.alloc cam
  (ar.1, { cameras := aset mgr.cameras camera_id ar.2 }, true)

/-- Embeds `CameraManager.get_camera`. -/
def get_camera (mgr : CameraManager) (camera_id : Nat) : Option Nat :=
  alookup mgr.cameras camera_id

/-- Embeds `CameraManager.remove_camera`: release the camera object,
then drop the registry entry. -/
def remove_camera (h : CamHeap) (mgr : CameraManager) (camera_id : Nat) :
    CamHeap × CameraManager × Bool :=
  match alookup mgr.cameras camera_id with
  | some r => (h.modify r IPCamera.release, { cameras := adel mgr.cameras camera_id }, true)
  | none => (h, mgr, false)

/-! ## The fetch loop `IPCamera._update_frame` as an event trace

A claim about lock discipline is settled on the sequence of operations
one loop iteration performs, in source order, annotated with whether the
per-camera frame lock is held while each operation runs. -/

/-- Operations of one `_update_frame` iteration. -/
inductive LoopEvent where
  | acquire
  | lockRelease
  | capRead
  | publish
  | capHandleRelease
  | sleep (secs : ℚ)
  | capReopen
  | toFallback
deriving DecidableEq, Repr

/-- Whether an operation blocks on I/O or on the clock: the decode call
`self.cap.read()`, `time.sleep`, and the `cv2.VideoCapture` reopen. -/
def blockingEvent : LoopEvent → Bool
  | .capRead => true
  | .sleep _ => true
  | .capReopen => true
  | _ => false

/-- One iteration of the `while` body of `_update_frame` (lines 85-101),
in source order.  `readOk` is the `ret` flag of `cap.read()`; `reopenOk`
is whether the reconnect `cv2.VideoCapture(url)` opens.  The `with
self.lock:` block opens before the read and closes after the whole
read/reconnect sequence (also on `break`). -/
def updateFrameIter (readOk : Bool) (reopenOk : Bool) : List LoopEvent :=
  if readOk then
    [.acquire, .capRead, .publish, .lockRelease]
  else
    [.acquire, .capRead, .capHandleRelease, .sleep 1, .capReopen]
      ++ (if reopenOk then [] else [.toFallback]) ++ [.lockRelease]

/-- Annotate each event with whether the frame lock is held while it
runs, given the lock depth on entry. -/
def annotateLock : Nat → List LoopEvent → List (LoopEvent × Bool)
  | _, [] => []
  | d, e :: r =>
      (e, decide (0 < d)) ::
      annotateLock (match e with | .acquire => d + 1 | .lockRelease => d - 1 | _ => d) r

/-- The annotated trace of one fetch-loop iteration, entered with the
lock free. -/
def updateFrameTrace (readOk : Bool) (reopenOk : Bool) : List (LoopEvent × Bool) :=
  annotateLock 0 (updateFrameIter readOk reopenOk)

/-! ## Scenario constants used by claim statements -/

/-- Drop the screenshot reference of a violation record; used to state
that a failed capture changes the emitted record only in that field. -/
def clearShot (v : ViolationData) : ViolationData := { v with screenshot := none }

/-- One frame of the sustained-violation scenario: a single worker on
camera 1 (one confident detection), continuously missing a helmet. -/
def c4Run (st : SGState) (t : ℚ) : Img × List ViolationData × SGState :=
  sgDetect true st (Img.live 0) 1 [⟨0, 0, 50, 100⟩] [1] (fun _ => ["helmet"]) t true
    "iso" "stamp"

/-- Detector states after the scenario frames at t = 0, 1, 2, 3, 4. -/
def c4s1 : SGState := (c4Run SGState.init 0).2.2

def c4s2 : SGState := (c4Run c4s1 1).2.2

def c4s3 : SGState := (c4Run c4s2 2).2.2

def c4s4 : SGState := (c4Run c4s3 3).2.2

def c4s5 : SGState := (c4Run c4s4 4).2.2

/-- The record emitted by the scenario at frame time `t` (window start
is 0, so the duration is `round(t, 1)`). -/
def c4v (t : ℚ) : ViolationData :=
  { worker_id := workerId 1 0, missing_gear := ["helmet"], duration := pyRound1 t,
    screenshot := captureViolationScreenshot true 1 (workerId 1 0) "safety_gear" "stamp",
    timestamp := "iso", camera_id := 1 }

/-! ## Helper lemmas -/

theorem alookup_aset {κ β : Type} [DecidableEq κ] (l : List (κ × β)) (k : κ) (v : β) :
    alookup (aset l k v) k = some v := by
  simp [aset, alookup]

theorem alookup_adel_ne {κ β : Type} [DecidableEq κ] (l : List (κ × β)) (k k' : κ)
    (h : k' ≠ k) : alookup (adel l k) k' = alookup l k' := by
  induction l with
  | nil => rfl
  | cons p r ih =>
      by_cases hp : p.1 = k
      · have hpk' : ¬ p.1 = k' := fun hh => h (hh ▸ hp)
        simp [adel, alookup, hp, hpk', ih, Ne.symm h]
      · by_cases hk' : p.1 = k'
        · simp [adel, alookup, hp, hk', h]
        · simp [adel, alookup, hp, hk', ih]

theorem alookup_adel_self {κ β : Type} [DecidableEq κ] (l : List (κ × β)) (k : κ) :
    alookup (adel l k) k = none := by
  induction l with
  | nil => rfl
  | cons p r ih =>
      by_cases hp : p.1 = k
      · simp [adel, hp, ih]
      · simp [adel, alookup, hp, ih]

theorem alookup_aset_ne {κ β : Type} [DecidableEq κ] (l : List (κ × β)) (k k' : κ) (v : β)
    (h : k' ≠ k) : alookup (aset l k v) k' = alookup l k' := by
  have : ¬ ((k, v).1 = k') := fun hh => h hh.symm
  simp only [aset, alookup, this, if_false]
  exact alookup_adel_ne l k k' h

theorem pyRound1_ge_three {q : ℚ} (h : (3 : ℚ) ≤ q) : (3 : ℚ) ≤ pyRound1 q := by
  have h30 : (30 : ℤ) ≤ ⌊q * 10⌋ := by
    have : ((30 : ℤ) : ℚ) ≤ q * 10 := by push_cast; linarith
    exact Int.le_floor.mpr this
  have hn : (30 : ℤ) ≤
      (if q * 10 - ⌊q * 10⌋ < 1/2 then ⌊q * 10⌋
       else if 1/2 < q * 10 - ⌊q * 10⌋ then ⌊q * 10⌋ + 1
       else if 2 ∣ ⌊q * 10⌋ then ⌊q * 10⌋ else ⌊q * 10⌋ + 1) := by
    split
    · exact h30
    · split
      · omega
      · split
        · exact h30
        · omega
  show (3 : ℚ) ≤ (_ : ℤ) / 10
  rw [le_div_iff₀ (by norm_num)]
  calc (3 : ℚ) * 10 = ((30 : ℤ) : ℚ) := by norm_num
  _ ≤ _ := by exact_mod_cast hn

theorem pyRound1_intCast (n : ℤ) : pyRound1 (n : ℚ) = n := by
  have hcast : ((n : ℚ)) * 10 = ((n * 10 : ℤ) : ℚ) := by push_cast; ring
  have hfloor : ⌊((n : ℚ)) * 10⌋ = n * 10 := by rw [hcast, Int.floor_intCast]
  unfold pyRound1
  simp only [hfloor]
  rw [if_pos (by rw [hcast]; simp)]
  rw [div_eq_iff (by norm_num : (10 : ℚ) ≠ 0)]
  push_cast
  ring

theorem FrameHeap.read_alloc (h : FrameHeap) (v : Img) :
    (h.alloc v).1.read (h.alloc v).2 = some v := by
  simp [FrameHeap.alloc, FrameHeap.read]

theorem FrameHeap.read_alloc_old (h : FrameHeap) (v : Img) (r : Nat)
    (hr : r < h.cells.length) : (h.alloc v).1.read r = h.read r := by
  simp [FrameHeap.alloc, FrameHeap.read, List.getElem?_append_left hr]

theorem FrameHeap.read_write_ne (h : FrameHeap) (r r' : Nat) (v : Img) (hne : r' ≠ r) :
    (h.write r' v).read r = h.read r := by
  simp [FrameHeap.write, FrameHeap.read, List.getElem?_set_ne hne]

theorem sgStep_threshold (c : Nat) (analyze : Box → List String) (t : ℚ) (sv : Bool)
    (iso stamp : String) (acc : Img × List ViolationData × SGState) (ib : Nat × Box) :
    (sgStep c analyze t sv iso stamp acc ib).2.2.alert_threshold
      = acc.2.2.alert_threshold := by
  by_cases h1 : analyze ib.2 = []
  · simp [sgStep, h1]
  · simp only [sgStep, h1]
    repeat' split
    all_goals rfl

theorem sgStep_vt_eq (c : Nat) (analyze : Box → List String) (t : ℚ) (sv : Bool)
    (iso stamp : String) (acc : Img × List ViolationData × SGState) (ib : Nat × Box) :
    (sgStep c analyze t sv iso stamp acc ib).2.2.violation_time =
      if analyze ib.2 = [] then adel acc.2.2.violation_time (c, workerId c ib.1)
      else if alookup acc.2.2.violation_time (c, workerId c ib.1) = none
        then aset acc.2.2.violation_time (c, workerId c ib.1) t
        else acc.2.2.violation_time := by
  by_cases h1 : analyze ib.2 = []
  · simp [sgStep, h1]
  · by_cases h2 : alookup acc.2.2.violation_time (c, workerId c ib.1) = none
    · simp only [sgStep, h1, h2, if_true, ite_true]
      repeat' split
      all_goals simp_all
    · simp only [sgStep, h1, h2]
      repeat' split
      all_goals simp_all

theorem sgStep_viol_eq (c : Nat) (analyze : Box → List String) (t : ℚ) (sv : Bool)
    (iso stamp : String) (acc : Img × List ViolationData × SGState) (ib : Nat × Box) :
    (sgStep c analyze t sv iso stamp acc ib).2.1 =
      (if analyze ib.2 = [] then acc.2.1
      else if acc.2.2.alert_threshold
          ≤ t - (alookup
              (if alookup acc.2.2.violation_time (c, workerId c ib.1) = none
               then aset acc.2.2.violation_time (c, workerId c ib.1) t
               else acc.2.2.violation_time) (c, workerId c ib.1)).getD t then
        acc.2.1 ++
          [{ worker_id := workerId c ib.1
             missing_gear := analyze ib.2
             duration := pyRound1 (t - (alookup
               (if alookup acc.2.2.violation_time (c, workerId c ib.1) = none
                then aset acc.2.2.violation_time (c, workerId c ib.1) t
                else acc.2.2.violation_time) (c, workerId c ib.1)).getD t)
             screenshot := captureViolationScreenshot sv c (workerId c ib.1)
                 "safety_gear" stamp
             timestamp := iso
             camera_id := c }]
      else acc.2.1) := by
  by_cases h1 : analyze ib.2 = []
  · simp [sgStep, h1]
  · simp only [sgStep, h1]
    repeat' split
    all_goals simp_all

theorem sgStep_hist_eq (c : Nat) (analyze : Box → List String) (t : ℚ) (sv : Bool)
    (iso stamp : String) (acc : Img × List ViolationData × SGState) (ib : Nat × Box) :
    (sgStep c analyze t sv iso stamp acc ib).2.2.violation_history =
      (if analyze ib.2 = [] then acc.2.2.violation_history
      else if acc.2.2.alert_threshold
          ≤ t - (alookup
              (if alookup acc.2.2.violation_time (c, workerId c ib.1) = none
               then aset acc.2.2.violation_time (c, workerId c ib.1) t
               else acc.2.2.violation_time) (c, workerId c ib.1)).getD t then
        acc.2.2.violation_history ++
          [{ worker_id := workerId c ib.1
             missing_gear := analyze ib.2
             duration := pyRound1 (t - (alookup
               (if alookup acc.2.2.violation_time (c, workerId c ib.1) = none
                then aset acc.2.2.violation_time (c, workerId c ib.1) t
                else acc.2.2.violation_time) (c, workerId c ib.1)).getD t)
             screenshot := captureViolationScreenshot sv c (workerId c ib.1)
                 "safety_gear" stamp
             timestamp := iso
             camera_id := c }]
      else acc.2.2.violation_history) := by
  by_cases h1 : analyze ib.2 = []
  · simp [sgStep, h1]
  · simp only [sgStep, h1]
    repeat' split
    all_goals simp_all

theorem sgStep_hist_rel (c : Nat) (analyze : Box → List String) (t : ℚ) (sv : Bool)
    (iso stamp : String) (acc : Img × List ViolationData × SGState) (ib : Nat × Box)
    (H : List ViolationData) (hh : acc.2.2.violation_history = H ++ acc.2.1) :
    (sgStep c analyze t sv iso stamp acc ib).2.2.violation_history
      = H ++ (sgStep c analyze t sv iso stamp acc ib).2.1 := by
  rw [sgStep_hist_eq, sgStep_viol_eq]
  split
  · exact hh
  · rw [hh]
    repeat' split
    all_goals first
    | rw [List.append_assoc]
    | rfl

theorem sgFold_hist_rel (c : Nat) (analyze : Box → List String) (t : ℚ) (sv : Bool)
    (iso stamp : String) (l : List (Nat × Box)) :
    ∀ (acc : Img × List ViolationData × SGState) (H : List ViolationData),
      acc.2.2.violation_history = H ++ acc.2.1 →
      ((l.foldl (sgStep c analyze t sv iso stamp) acc).2.2).violation_history
        = H ++ (l.foldl (sgStep c analyze t sv iso stamp) acc).2.1 := by
  induction l with
  | nil => intro acc H hh; simpa using hh
  | cons hd tl ih =>
      intro acc H hh
      simp only [List.foldl_cons]
      exact ih _ H (sgStep_hist_rel c analyze t sv iso stamp acc hd H hh)

theorem sgDetect_hist (hog : Bool) (st : SGState) (frame : Img) (c : Nat)
    (boxes : List Box) (weights : List ℚ) (analyze : Box → List String) (t : ℚ) (sv : Bool)
    (iso stamp : String) :
    (sgDetect hog st frame c boxes weights analyze t sv iso stamp).2.2.violation_history
      = st.violation_history
        ++ (sgDetect hog st frame c boxes weights analyze t sv iso stamp).2.1 := by
  cases hog with
  | false => simp [sgDetect]
  | true =>
      simp only [sgDetect, if_true]
      exact sgFold_hist_rel c analyze t sv iso stamp _ (frame, [], st) st.violation_history
        (by simp)

theorem sgStep_absent (c : Nat) (analyze : Box → List String) (t : ℚ) (sv : Bool)
    (iso stamp : String) (acc : Img × List ViolationData × SGState) (ib : Nat × Box)
    (k : Nat × String) (hk : alookup acc.2.2.violation_time k = none)
    (hcase : k ≠ (c, workerId c ib.1) ∨ analyze ib.2 = []) :
    alookup (sgStep c analyze t sv iso stamp acc ib).2.2.violation_time k = none := by
  rw [sgStep_vt_eq]
  by_cases h1 : analyze ib.2 = []
  · rw [if_pos h1]
    by_cases hkk : k = (c, workerId c ib.1)
    · subst hkk; exact alookup_adel_self _ _
    · rw [alookup_adel_ne _ _ _ hkk]; exact hk
  · have hk2 : k ≠ (c, workerId c ib.1) := hcase.resolve_right h1
    rw [if_neg h1]
    by_cases h2 : alookup acc.2.2.violation_time (c, workerId c ib.1) = none
    · rw [if_pos h2, alookup_aset_ne _ _ _ _ hk2]; exact hk
    · rw [if_neg h2]; exact hk

theorem sgFold_absent (c : Nat) (analyze : Box → List String) (t : ℚ) (sv : Bool)
    (iso stamp : String) (l : List (Nat × Box)) :
    ∀ (acc : Img × List ViolationData × SGState) (k : Nat × String),
      alookup acc.2.2.violation_time k = none →
      (∀ jb ∈ l, k ≠ (c, workerId c jb.1) ∨ analyze jb.2 = []) →
      alookup ((l.foldl (sgStep c analyze t sv iso stamp) acc).2.2).violation_time k
        = none := by
  induction l with
  | nil => intro acc k hk _; simpa using hk
  | cons hd tl ih =>
      intro acc k hk hall
      simp only [List.foldl_cons]
      exact ih _ k (sgStep_absent c analyze t sv iso stamp acc hd k hk (hall hd (by simp)))
        (fun jb hjb => hall jb (by simp [hjb]))

theorem sgStep_deletes (c : Nat) (analyze : Box → List String) (t : ℚ) (sv : Bool)
    (iso stamp : String) (acc : Img × List ViolationData × SGState) (ib : Nat × Box)
    (hm : analyze ib.2 = []) :
    alookup (sgStep c analyze t sv iso stamp acc ib).2.2.violation_time
      (c, workerId c ib.1) = none := by
  rw [sgStep_vt_eq, if_pos hm]
  exact alookup_adel_self _ _

theorem sgFold_deleted (c : Nat) (analyze : Box → List String) (t : ℚ) (sv : Bool)
    (iso stamp : String) (l : List (Nat × Box)) :
    ∀ (acc : Img × List ViolationData × SGState) (i : Nat) (b : Box),
      (i, b) ∈ l → analyze b = [] →
      (∀ jb ∈ l, workerId c jb.1 = workerId c i → analyze jb.2 = []) →
      alookup ((l.foldl (sgStep c analyze t sv iso stamp) acc).2.2).violation_time
        (c, workerId c i) = none := by
  induction l with
  | nil => intro _ _ _ hmem; cases hmem
  | cons hd tl ih =>
      intro acc i b hmem hb hall
      rcases List.mem_cons.mp hmem with heq | htl
      · simp only [List.foldl_cons]
        apply sgFold_absent
        · rw [← heq]
          exact sgStep_deletes c analyze t sv iso stamp acc (i, b) hb
        · intro jb hjb
          by_cases hw : workerId c jb.1 = workerId c i
          · exact Or.inr (hall jb (List.mem_cons_of_mem _ hjb) hw)
          · exact Or.inl (fun hh => hw (congrArg Prod.snd hh).symm)
      · simp only [List.foldl_cons]
        exact ih _ i b htl hb (fun jb hjb => hall jb (List.mem_cons_of_mem _ hjb))

theorem mem_ite_append {α : Type} {P : Prop} [Decidable P] {a e : List α} {v : α}
    (hv : v ∈ if P then a ++ e else a) : v ∈ a ∨ (P ∧ v ∈ e) := by
  by_cases h : P
  · rw [if_pos h] at hv
    rcases List.mem_append.mp hv with h1 | h2
    exacts [Or.inl h1, Or.inr ⟨h, h2⟩]
  · rw [if_neg h] at hv
    exact Or.inl hv

theorem sgStep_duration (c : Nat) (analyze : Box → List String) (t : ℚ) (sv : Bool)
    (iso stamp : String) (acc : Img × List ViolationData × SGState) (ib : Nat × Box)
    (hP : ∀ v ∈ acc.2.1, ∃ d, acc.2.2.alert_threshold ≤ d ∧ v.duration = pyRound1 d) :
    ∀ v ∈ (sgStep c analyze t sv iso stamp acc ib).2.1,
      ∃ d, acc.2.2.alert_threshold ≤ d ∧ v.duration = pyRound1 d := by
  intro v hv
  rw [sgStep_viol_eq] at hv
  by_cases h1 : analyze ib.2 = []
  · rw [if_pos h1] at hv
    exact hP v hv
  · rw [if_neg h1] at hv
    rcases mem_ite_append hv with h | ⟨hcond, hmem⟩
    · exact hP v h
    · simp only [List.mem_singleton] at hmem
      subst hmem
      exact ⟨_, hcond, rfl⟩

theorem sgFold_duration (c : Nat) (analyze : Box → List String) (t : ℚ) (sv : Bool)
    (iso stamp : String) (l : List (Nat × Box)) :
    ∀ (acc : Img × List ViolationData × SGState) (thr : ℚ),
      acc.2.2.alert_threshold = thr →
      (∀ v ∈ acc.2.1, ∃ d, thr ≤ d ∧ v.duration = pyRound1 d) →
      ∀ v ∈ (l.foldl (sgStep c analyze t sv iso stamp) acc).2.1,
        ∃ d, thr ≤ d ∧ v.duration = pyRound1 d := by
  induction l with
  | nil => intro acc thr _ hP; simpa using hP
  | cons hd tl ih =>
      intro acc thr hthr hP
      simp only [List.foldl_cons]
      refine ih _ thr ?_ ?_
      · rw [sgStep_threshold, hthr]
      · have := sgStep_duration c analyze t sv iso stamp acc hd (by rw [hthr]; exact hP)
        rw [hthr] at this
        exact this

theorem sgFold_threshold (c : Nat) (analyze : Box → List String) (t : ℚ) (sv : Bool)
    (iso stamp : String) (l : List (Nat × Box)) :
    ∀ (acc : Img × List ViolationData × SGState),
      ((l.foldl (sgStep c analyze t sv iso stamp) acc).2.2).alert_threshold
        = acc.2.2.alert_threshold := by
  induction l with
  | nil => intro acc; rfl
  | cons hd tl ih =>
      intro acc
      simp only [List.foldl_cons]
      rw [ih, sgStep_threshold]

theorem sgDetect_threshold (hog : Bool) (st : SGState) (frame : Img) (c : Nat)
    (boxes : List Box) (weights : List ℚ) (analyze : Box → List String) (t : ℚ) (sv : Bool)
    (iso stamp : String) :
    (sgDetect hog st frame c boxes weights analyze t sv iso stamp).2.2.alert_threshold
      = st.alert_threshold := by
  cases hog with
  | false => rfl
  | true =>
      simp only [sgDetect, if_true]
      exact sgFold_threshold c analyze t sv iso stamp _ (frame, [], st)

theorem sgDetect_single (st : SGState) (frame : Img) (c : Nat) (b : Box)
    (analyze : Box → List String) (t : ℚ) (sv : Bool) (iso stamp : String) :
    sgDetect true st frame c [b] [1] analyze t sv iso stamp
      = sgStep c analyze t sv iso stamp (frame, [], st) (0, b) := by
  norm_num [sgDetect, validBoxes]

theorem sgStep_saveOk_pair (c : Nat) (analyze : Box → List String) (t : ℚ)
    (iso stamp : String) (ib : Nat × Box) (frF frT : Img) (vsF vsT : List ViolationData)
    (stF stT : SGState) (hfr : frF = frT) (hv : vsF = vsT.map clearShot)
    (hvt : stF.violation_time = stT.violation_time)
    (hthr : stF.alert_threshold = stT.alert_threshold) :
    (sgStep c analyze t false iso stamp (frF, vsF, stF) ib).1
      = (sgStep c analyze t true iso stamp (frT, vsT, stT) ib).1 ∧
    (sgStep c analyze t false iso stamp (frF, vsF, stF) ib).2.1
      = ((sgStep c analyze t true iso stamp (frT, vsT, stT) ib).2.1).map clearShot ∧
    (sgStep c analyze t false iso stamp (frF, vsF, stF) ib).2.2.violation_time
      = (sgStep c analyze t true iso stamp (frT, vsT, stT) ib).2.2.violation_time ∧
    (sgStep c analyze t false iso stamp (frF, vsF, stF) ib).2.2.alert_threshold
      = (sgStep c analyze t true iso stamp (frT, vsT, stT) ib).2.2.alert_threshold := by
  subst hfr hv
  obtain ⟨vtF, thrF, hF⟩ := stF
  obtain ⟨vtT, thrT, hT⟩ := stT
  dsimp only at hvt hthr
  subst hvt hthr
  by_cases h1 : analyze ib.2 = []
  · simp [sgStep, h1]
  · by_cases h2 : alookup vtF (c, workerId c ib.1) = none
    · by_cases h3 : thrF ≤ t - (alookup (aset vtF (c, workerId c ib.1) t)
          (c, workerId c ib.1)).getD t
      · simp [sgStep, h1, h2, h3, clearShot, captureViolationScreenshot]
      · simp [sgStep, h1, h2, h3]
    · by_cases h3 : thrF ≤ t - (alookup vtF (c, workerId c ib.1)).getD t
      · simp [sgStep, h1, h2, h3, clearShot, captureViolationScreenshot]
      · simp [sgStep, h1, h2, h3]

theorem sgFold_saveOk_pair (c : Nat) (analyze : Box → List String) (t : ℚ)
    (iso stamp : String) (l : List (Nat × Box)) :
    ∀ (frF frT : Img) (vsF vsT : List ViolationData) (stF stT : SGState),
      frF = frT → vsF = vsT.map clearShot → stF.violation_time = stT.violation_time →
      stF.alert_threshold = stT.alert_threshold →
      ((l.foldl (sgStep c analyze t false iso stamp) (frF, vsF, stF)).1
        = (l.foldl (sgStep c analyze t true iso stamp) (frT, vsT, stT)).1) ∧
      ((l.foldl (sgStep c analyze t false iso stamp) (frF, vsF, stF)).2.1
        = ((l.foldl (sgStep c analyze t true iso stamp) (frT, vsT, stT)).2.1).map clearShot) ∧
      ((l.foldl (sgStep c analyze t false iso stamp) (frF, vsF, stF)).2.2.violation_time
        = (l.foldl (sgStep c analyze t true iso stamp) (frT, vsT, stT)).2.2.violation_time) ∧
      ((l.foldl (sgStep c analyze t false iso stamp) (frF, vsF, stF)).2.2.alert_threshold
        = (l.foldl (sgStep c analyze t true iso stamp) (frT, vsT, stT)).2.2.alert_threshold) := by
  induction l with
  | nil =>
      intro frF frT vsF vsT stF stT hfr hv hvt hthr
      exact ⟨hfr, hv, hvt, hthr⟩
  | cons hd tl ih =>
      intro frF frT vsF vsT stF stT hfr hv hvt hthr
      simp only [List.foldl_cons]
      obtain ⟨h1, h2, h3, h4⟩ :=
        sgStep_saveOk_pair c analyze t iso stamp hd frF frT vsF vsT stF stT hfr hv hvt hthr
      exact ih _ _ _ _ _ _ h1 h2 h3 h4

theorem proxInner_eq (c : Nat) (t : ℚ) (sv : Bool) (iso stamp : String) (i : Nat)
    (wb : Box) (acc : Img × List AlertData × ProxState) (jm : Nat × Box) :
    proxInner c t sv iso stamp i wb acc jm =
      if distSq (centerOf wb) (centerOf jm.2) < acc.2.2.proximity_threshold ^ 2 then
        if acc.2.2.alert_cooldown
            ≤ t - (alookup acc.2.2.alert_history (c, proxKey c i jm.1)).getD 0 then
          (Img.text (Img.line acc.1) "PROXIMITY ALERT!",
           acc.2.1 ++ [mkProxAlert c i wb jm.1 jm.2 sv iso stamp],
           { acc.2.2 with
               violation_history := acc.2.2.violation_history
                 ++ [mkProxAlert c i wb jm.1 jm.2 sv iso stamp],
               alert_history := aset acc.2.2.alert_history (c, proxKey c i jm.1) t })
        else acc
      else acc := rfl

theorem proxInner_alerts (c : Nat) (t : ℚ) (sv : Bool) (iso stamp : String) (i : Nat)
    (wb : Box) (acc : Img × List AlertData × ProxState) (jm : Nat × Box) :
    (proxInner c t sv iso stamp i wb acc jm).2.1 = acc.2.1 ∨
    (proxInner c t sv iso stamp i wb acc jm).2.1
      = acc.2.1 ++ [mkProxAlert c i wb jm.1 jm.2 sv iso stamp] := by
  rw [proxInner_eq]
  split
  · split
    · right; rfl
    · left; rfl
  · left; rfl

theorem proxInnerFold_alerts (c : Nat) (t : ℚ) (sv : Bool) (iso stamp : String) (i : Nat)
    (wb : Box) (jms : List (Nat × Box)) :
    ∀ acc : Img × List AlertData × ProxState, ∃ ext,
      ((jms.foldl (proxInner c t sv iso stamp i wb) acc).2.1 = acc.2.1 ++ ext) ∧
      ext.Sublist (jms.map (fun jm => mkProxAlert c i wb jm.1 jm.2 sv iso stamp)) := by
  induction jms with
  | nil => intro acc; exact ⟨[], by simp, by simp⟩
  | cons jm rest ih =>
      intro acc
      simp only [List.foldl_cons, List.map_cons]
      rcases ih (proxInner c t sv iso stamp i wb acc jm) with ⟨ext, hext, hsub⟩
      rcases proxInner_alerts c t sv iso stamp i wb acc jm with h | h
      · exact ⟨ext, by rw [hext, h], hsub.cons _⟩
      · refine ⟨mkProxAlert c i wb jm.1 jm.2 sv iso stamp :: ext, ?_,
          hsub.cons₂ _⟩
        rw [hext, h, List.append_assoc]
        rfl

theorem proxOuterFold_alerts (c : Nat) (t : ℚ) (sv : Bool) (iso stamp : String)
    (machinery : List Box) (iws : List (Nat × Box)) :
    ∀ acc : Img × List AlertData × ProxState, ∃ ext,
      ((iws.foldl (proxOuter c t sv iso stamp machinery) acc).2.1 = acc.2.1 ++ ext) ∧
      ext.Sublist (iws.flatMap (fun iw => machinery.enum.map
        (fun jm => mkProxAlert c iw.1 iw.2 jm.1 jm.2 sv iso stamp))) := by
  induction iws with
  | nil => intro acc; exact ⟨[], by simp, by simp⟩
  | cons iw rest ih =>
      intro acc
      simp only [List.foldl_cons, List.flatMap_cons]
      rcases proxInnerFold_alerts c t sv iso stamp iw.1 iw.2 machinery.enum
        (Img.text (Img.rect acc.1) ("Worker " ++ toString (iw.1 + 1)), acc.2.1, acc.2.2)
        with ⟨e1, he1, hs1⟩
      rcases ih (proxOuter c t sv iso stamp machinery acc iw) with ⟨e2, he2, hs2⟩
      refine ⟨e1 ++ e2, ?_, hs1.append hs2⟩
      rw [he2]
      have houter : (proxOuter c t sv iso stamp machinery acc iw).2.1 = acc.2.1 ++ e1 := he1
      rw [houter, List.append_assoc]

theorem detectMachinery_st (st : ProxState) (frame : Img) (c : Nat) (m : List Box) :
    (detectMachinery st frame c m).2.2
      = { st with machinery_positions := aset st.machinery_positions c m } := rfl

theorem detectMachinery_machinery (st : ProxState) (frame : Img) (c : Nat)
    (m : List Box) : (detectMachinery st frame c m).2.1 = m := rfl

theorem pDetect_single (st : ProxState) (frame : Img) (c : Nat) (mb wb : Box) (t : ℚ)
    (sv : Bool) (iso stamp : String) :
    pDetect st frame c [mb] [wb] [1] t sv iso stamp
      = proxInner c t sv iso stamp 0 wb
          (Img.text (Img.rect (detectMachinery st frame c [mb]).1)
             ("Worker " ++ toString (0 + 1)),
           [], (detectMachinery st frame c [mb]).2.2) (0, mb) := by
  norm_num [pDetect, proxOuter, validBoxes, detectMachinery_machinery]

/-! ## Claim theorems -/

/-- Claim C10 counterexample: in the read-failure branch of one
`_update_frame` iteration, the bounded 1-second reconnect sleep runs
while the frame lock is held (the `with self.lock:` block encloses the
whole read/reconnect sequence), so the claim that the sleep is performed
while holding no lock is false. -/
theorem c10_counterexample :
    ∃ p ∈ updateFrameTrace false true, blockingEvent p.1 = true ∧ p.2 = true := by
  decide

/-- Claim C10 (amended): the fetch loop acquires the frame lock at the
top of each iteration and holds it across every blocking operation of
that iteration — the decode call `cap.read()`, the 1-second reconnect
sleep and the reopen attempt all run with the lock held, and the
publish of the decoded frame also happens under the lock. -/
theorem c10_lock_held_while_blocking :
    ∀ (readOk reopenOk : Bool), ∀ p ∈ updateFrameTrace readOk reopenOk,
      (blockingEvent p.1 = true → p.2 = true) ∧ (p.1 = LoopEvent.publish → p.2 = true) := by
  decide

/-- Claim C10 witness: the theorem applied to the successful-read
iteration at its decode event. -/
theorem c10_lock_held_while_blocking_witness :
    (blockingEvent ((LoopEvent.capRead, true) : LoopEvent × Bool).1 = true →
      ((LoopEvent.capRead, true) : LoopEvent × Bool).2 = true) ∧
    (((LoopEvent.capRead, true) : LoopEvent × Bool).1 = LoopEvent.publish →
      ((LoopEvent.capRead, true) : LoopEvent × Bool).2 = true) := by
  exact c10_lock_held_while_blocking true true (LoopEvent.capRead, true) (by decide)

/-- Claim C7 counterexample: a manager holding a running camera at id 0;
after `add_camera` replaces the entry, the old camera object still has
its loop flag set and its capture handle open — the old source is not
released first, refuting the claim at this input. -/
theorem c7_counterexample :
    ¬ (((add_camera ⟨[mkIPCamera "u0" (some "Camera-0") 0 0 true]⟩ ⟨[(0, 0)]⟩ 0 "u1"
          none 1 true).1.read 0).map (fun c => (c.is_running, c.cap_open))
        = some (false, false)) := by
  decide

/-- Claim C7 (amended): `add_camera` is idempotent per id in the sense
that it replaces the registry entry for an existing id with the freshly
constructed source and returns `True`; however it does not release the
old source first — the replaced camera object is left completely
untouched (loop flag still set, capture handle still open). -/
theorem c7_add_camera_replaces_without_release (h : CamHeap) (mgr : CameraManager)
    (camera_id : Nat) (url : String) (name : Option String) (now : ℚ) (openOk : Bool)
    (r0 : Nat) (_hold : alookup mgr.cameras camera_id = some r0)
    (hval : r0 < h.cells.length) :
    (add_camera h mgr camera_id url name now openOk).2.2 = true ∧
    alookup (add_camera h mgr camera_id url name now openOk).2.1.cameras camera_id
      = some h.cells.length ∧
    h.cells.length ≠ r0 ∧
    (add_camera h mgr camera_id url name now openOk).1.read r0 = h.read r0 := by
  refine ⟨rfl, ?_, by omega, ?_⟩
  · simpa [add_camera, CamHeap.alloc] using
      alookup_aset mgr.cameras camera_id h.cells.length
  · simp [add_camera, CamHeap.alloc, CamHeap.read, List.getElem?_append_left hval]

/-- Claim C7 witness: the amended theorem applied to a one-camera
manager. -/
theorem c7_add_camera_replaces_without_release_witness :
    (add_camera ⟨[mkIPCamera "u0" (some "Camera-0") 0 0 true]⟩ ⟨[(0, 0)]⟩ 0 "u1"
        none 1 true).2.2 = true ∧
    alookup (add_camera ⟨[mkIPCamera "u0" (some "Camera-0") 0 0 true]⟩ ⟨[(0, 0)]⟩ 0 "u1"
        none 1 true).2.1.cameras 0
      = some (⟨[mkIPCamera "u0" (some "Camera-0") 0 0 true]⟩ : CamHeap).cells.length ∧
    (⟨[mkIPCamera "u0" (some "Camera-0") 0 0 true]⟩ : CamHeap).cells.length ≠ 0 ∧
    (add_camera ⟨[mkIPCamera "u0" (some "Camera-0") 0 0 true]⟩ ⟨[(0, 0)]⟩ 0 "u1"
        none 1 true).1.read 0
      = (⟨[mkIPCamera "u0" (some "Camera-0") 0 0 true]⟩ : CamHeap).read 0 := by
  exact c7_add_camera_replaces_without_release _ _ 0 "u1" none 1 true 0 (by decide)
    (by decide)

/-- Claim C6 counterexample: a detector holding an open window for
worker `worker_1_0` on camera 1 processes a frame with no detections at
all (the subject is not detected, so the frame does not show
non-compliance for it); the claim says the window is removed, but the
code leaves it in place. -/
theorem c6_counterexample :
    alookup (sgDetect true ⟨[((1, "worker_1_0"), 0)], 3, []⟩ (Img.live 0) 1 [] []
        (fun _ => []) 1 true "i" "s").2.2.violation_time (1, "worker_1_0") ≠ none := by
  decide

/-- Claim C5: `get_frame` always returns a frame — a fresh placeholder
buffer tagged with the camera name when no frame has ever been
published, and otherwise a fresh copy of the internal buffer; the
returned buffer is distinct from the internal one, so a caller mutating
the returned frame never changes the internal `last_frame`, which
`get_frame` also leaves unchanged. -/
theorem c5_get_frame_copy (h : FrameHeap) (cam : IPCameraState)
    (hval : ∀ r, cam.last_frame = some r → r < h.cells.length) :
    ((get_frame h cam).1.read (get_frame h cam).2).isSome = true ∧
    (cam.last_frame = none →
      (get_frame h cam).1.read (get_frame h cam).2 = some (noFramePlaceholder cam.name)) ∧
    ∀ r, cam.last_frame = some r →
      (get_frame h cam).2 ≠ r ∧
      (∀ v, ((get_frame h cam).1.write (get_frame h cam).2 v).read r = h.read r) ∧
      (get_frame h cam).1.read r = h.read r := by
  cases hlf : cam.last_frame with
  | none =>
      have hgf : get_frame h cam = h.alloc (noFramePlaceholder cam.name) := by
        simp [get_frame, hlf]
      rw [hgf]
      refine ⟨by rw [FrameHeap.read_alloc]; rfl, fun _ => FrameHeap.read_alloc h _,
        fun r hr => Option.noConfusion hr⟩
  | some r0 =>
      have hr0 : r0 < h.cells.length := hval r0 hlf
      have hgf : get_frame h cam = h.alloc ((h.read r0).getD (Img.zeros 0 0 0)) := by
        simp [get_frame, hlf]
      rw [hgf]
      refine ⟨by rw [FrameHeap.read_alloc]; rfl, fun hn => Option.noConfusion hn,
        fun r hr => ?_⟩
      · have hrr : r0 = r := Option.some.inj hr
        subst hrr
        have hne : (h.alloc ((h.read r0).getD (Img.zeros 0 0 0))).2 ≠ r0 := by
          show h.cells.length ≠ r0
          omega
        refine ⟨hne, fun v => ?_, FrameHeap.read_alloc_old h _ r0 hr0⟩
        rw [FrameHeap.read_write_ne _ _ _ _ hne]
        exact FrameHeap.read_alloc_old h _ r0 hr0

/-- Claim C5 witness: the theorem applied to a heap with one live frame
published as `last_frame`. -/
theorem c5_get_frame_copy_witness :
    ((get_frame ⟨[Img.live 7]⟩ ⟨"u", "Cam", true, some 0, 0, true, false, [], 0, 0⟩).1.read
        (get_frame ⟨[Img.live 7]⟩ ⟨"u", "Cam", true, some 0, 0, true, false, [], 0, 0⟩).2).isSome
      = true ∧
    ((⟨"u", "Cam", true, some 0, 0, true, false, [], 0, 0⟩ : IPCameraState).last_frame = none →
      (get_frame ⟨[Img.live 7]⟩ ⟨"u", "Cam", true, some 0, 0, true, false, [], 0, 0⟩).1.read
          (get_frame ⟨[Img.live 7]⟩ ⟨"u", "Cam", true, some 0, 0, true, false, [], 0, 0⟩).2
        = some (noFramePlaceholder
            (⟨"u", "Cam", true, some 0, 0, true, false, [], 0, 0⟩ : IPCameraState).name)) ∧
    ∀ r, (⟨"u", "Cam", true, some 0, 0, true, false, [], 0, 0⟩ : IPCameraState).last_frame
        = some r →
      (get_frame ⟨[Img.live 7]⟩ ⟨"u", "Cam", true, some 0, 0, true, false, [], 0, 0⟩).2 ≠ r ∧
      (∀ v, ((get_frame ⟨[Img.live 7]⟩
            ⟨"u", "Cam", true, some 0, 0, true, false, [], 0, 0⟩).1.write
          (get_frame ⟨[Img.live 7]⟩
            ⟨"u", "Cam", true, some 0, 0, true, false, [], 0, 0⟩).2 v).read r
        = FrameHeap.read ⟨[Img.live 7]⟩ r) ∧
      (get_frame ⟨[Img.live 7]⟩ ⟨"u", "Cam", true, some 0, 0, true, false, [], 0, 0⟩).1.read r
        = FrameHeap.read ⟨[Img.live 7]⟩ r := by
  exact c5_get_frame_copy ⟨[Img.live 7]⟩ ⟨"u", "Cam", true, some 0, 0, true, false, [], 0, 0⟩
    (by intro r hr; injection hr with hh; show r < 1; omega)

theorem pyRound1_ofNat (n : ℕ) : pyRound1 (n : ℚ) = n := by
  have h := pyRound1_intCast (n : ℤ)
  rw [Int.cast_natCast] at h
  exact_mod_cast h

/-- Claim C1: the Safety-Gear Tracker never emits a ViolationRecord with
duration below the alert threshold (default 3 seconds): every record
returned by a detect pass has a `duration` field of at least 3, and that
field is the rounding of an elapsed time since the window start time
that is itself at least the threshold. -/
theorem c1_no_emission_below_threshold (hog : Bool) (st : SGState) (frame : Img) (c : Nat)
    (boxes : List Box) (weights : List ℚ) (analyze : Box → List String) (t : ℚ)
    (sv : Bool) (iso stamp : String) (hthr : st.alert_threshold = 3) :
    ∀ v ∈ (sgDetect hog st frame c boxes weights analyze t sv iso stamp).2.1,
      (3 : ℚ) ≤ v.duration ∧ ∃ d, (3 : ℚ) ≤ d ∧ v.duration = pyRound1 d := by
  intro v hv
  cases hog with
  | false => simp [sgDetect] at hv
  | true =>
      simp only [sgDetect, if_true] at hv
      have hP := sgFold_duration c analyze t sv iso stamp ((validBoxes boxes weights).enum)
        (frame, [], st) 3 (by simpa using hthr) (by simp) v hv
      rcases hP with ⟨d, hd, he⟩
      exact ⟨he ▸ pyRound1_ge_three hd, d, hd, he⟩

/-- Claim C1 witness: a worker on camera 1 whose window opened at time 0
is still non-compliant at time 4; the emitted record has duration 4 ≥ 3. -/
theorem c1_no_emission_below_threshold_witness :
    (3 : ℚ) ≤ (⟨workerId 1 0, ["helmet"], pyRound1 4,
        captureViolationScreenshot true 1 (workerId 1 0) "safety_gear" "s", "i", 1⟩
        : ViolationData).duration ∧
    ∃ d, (3 : ℚ) ≤ d ∧ (⟨workerId 1 0, ["helmet"], pyRound1 4,
        captureViolationScreenshot true 1 (workerId 1 0) "safety_gear" "s", "i", 1⟩
        : ViolationData).duration = pyRound1 d := by
  exact c1_no_emission_below_threshold true ⟨[((1, workerId 1 0), 0)], 3, []⟩ (Img.live 0) 1
    [⟨0, 0, 50, 100⟩] [1] (fun _ => ["helmet"]) 4 true "i" "s" rfl
    ⟨workerId 1 0, ["helmet"], pyRound1 4,
      captureViolationScreenshot true 1 (workerId 1 0) "safety_gear" "s", "i", 1⟩
    (by norm_num [sgDetect, validBoxes, sgStep, alookup, aset, adel])

/-- Claim C2: a compliant frame resets the hysteresis timer.  First
part: whenever a detected worker classifies with an empty missing-gear
list (and every detection carrying the same worker id in that frame is
also compliant — always the case since ids embed distinct indices), the
open ViolationWindow for (camera, workerId) is deleted by the pass.
Second part: for a single tracked worker, a window opened at t0, a
compliant frame at t1 and renewed non-compliance at t2 leave the window
start at t2, and a later frame at t3 whose elapsed time t3 - t2 reaches
the threshold emits a record whose duration is measured from t2 (namely
round(t3 - t2, 1)), not from t0. -/
theorem c2_compliance_resets_hysteresis :
    (∀ (st : SGState) (frame : Img) (c : Nat) (boxes : List Box) (weights : List ℚ)
        (analyze : Box → List String) (t : ℚ) (sv : Bool) (iso stamp : String)
        (i : Nat) (b : Box),
        (i, b) ∈ (validBoxes boxes weights).enum → analyze b = [] →
        (∀ jb ∈ (validBoxes boxes weights).enum,
           workerId c jb.1 = workerId c i → analyze jb.2 = []) →
        alookup (sgDetect true st frame c boxes weights analyze t sv iso
            stamp).2.2.violation_time (c, workerId c i) = none) ∧
    (∀ (st : SGState) (frame : Img) (c : Nat) (b : Box) (g : List String)
        (t0 t1 t2 t3 : ℚ) (sv : Bool) (iso stamp : String),
        g ≠ [] →
        alookup st.violation_time (c, workerId c 0) = none →
        st.alert_threshold ≤ t3 - t2 →
        alookup (sgDetect true st frame c [b] [1] (fun _ => g) t0 sv iso
            stamp).2.2.violation_time (c, workerId c 0) = some t0 ∧
        alookup (sgDetect true
            (sgDetect true st frame c [b] [1] (fun _ => g) t0 sv iso stamp).2.2
            frame c [b] [1] (fun _ => []) t1 sv iso stamp).2.2.violation_time
          (c, workerId c 0) = none ∧
        alookup (sgDetect true
            (sgDetect true
              (sgDetect true st frame c [b] [1] (fun _ => g) t0 sv iso stamp).2.2
              frame c [b] [1] (fun _ => []) t1 sv iso stamp).2.2
            frame c [b] [1] (fun _ => g) t2 sv iso stamp).2.2.violation_time
          (c, workerId c 0) = some t2 ∧
        ((sgDetect true
            (sgDetect true
              (sgDetect true
                (sgDetect true st frame c [b] [1] (fun _ => g) t0 sv iso stamp).2.2
                frame c [b] [1] (fun _ => []) t1 sv iso stamp).2.2
              frame c [b] [1] (fun _ => g) t2 sv iso stamp).2.2
            frame c [b] [1] (fun _ => g) t3 sv iso stamp).2.1).map
          (fun v => v.duration) = [pyRound1 (t3 - t2)]) := by
  constructor
  · intro st frame c boxes weights analyze t sv iso stamp i b hmem hcomp hsame
    simp only [sgDetect, if_true]
    exact sgFold_deleted c analyze t sv iso stamp _ (frame, [], st) i b hmem hcomp hsame
  · intro st frame c b g t0 t1 t2 t3 sv iso stamp hg hopen hlate
    have h0 : alookup (sgDetect true st frame c [b] [1] (fun _ => g) t0 sv iso
        stamp).2.2.violation_time (c, workerId c 0) = some t0 := by
      rw [sgDetect_single, sgStep_vt_eq]
      simp only [if_neg hg, if_pos hopen]
      exact alookup_aset _ _ _
    refine ⟨h0, ?_, ?_, ?_⟩
    · rw [sgDetect_single, sgStep_vt_eq]
      simp only [if_pos rfl]
      exact alookup_adel_self _ _
    · rw [sgDetect_single, sgStep_vt_eq]
      have hdel : alookup (sgDetect true
          (sgDetect true st frame c [b] [1] (fun _ => g) t0 sv iso stamp).2.2
          frame c [b] [1] (fun _ => []) t1 sv iso stamp).2.2.violation_time
          (c, workerId c 0) = none := by
        rw [sgDetect_single, sgStep_vt_eq]
        simp only [if_pos rfl]
        exact alookup_adel_self _ _
      simp only [if_neg hg, if_pos hdel]
      exact alookup_aset _ _ _
    · have h2 : alookup (sgDetect true
          (sgDetect true
            (sgDetect true st frame c [b] [1] (fun _ => g) t0 sv iso stamp).2.2
            frame c [b] [1] (fun _ => []) t1 sv iso stamp).2.2
          frame c [b] [1] (fun _ => g) t2 sv iso stamp).2.2.violation_time
          (c, workerId c 0) = some t2 := by
        rw [sgDetect_single, sgStep_vt_eq]
        have hdel : alookup (sgDetect true
            (sgDetect true st frame c [b] [1] (fun _ => g) t0 sv iso stamp).2.2
            frame c [b] [1] (fun _ => []) t1 sv iso stamp).2.2.violation_time
            (c, workerId c 0) = none := by
          rw [sgDetect_single, sgStep_vt_eq]
          simp only [if_pos rfl]
          exact alookup_adel_self _ _
        simp only [if_neg hg, if_pos hdel]
        exact alookup_aset _ _ _
      have hth : (sgDetect true
          (sgDetect true
            (sgDetect true st frame c [b] [1] (fun _ => g) t0 sv iso stamp).2.2
            frame c [b] [1] (fun _ => []) t1 sv iso stamp).2.2
          frame c [b] [1] (fun _ => g) t2 sv iso stamp).2.2.alert_threshold
          = st.alert_threshold := by
        rw [sgDetect_threshold, sgDetect_threshold, sgDetect_threshold]
      rw [sgDetect_single, sgStep_viol_eq]
      have h2ne : ¬ (alookup (sgDetect true
          (sgDetect true
            (sgDetect true st frame c [b] [1] (fun _ => g) t0 sv iso stamp).2.2
            frame c [b] [1] (fun _ => []) t1 sv iso stamp).2.2
          frame c [b] [1] (fun _ => g) t2 sv iso stamp).2.2.violation_time
          (c, workerId c 0) = none) := by
        rw [h2]; exact fun hh => Option.noConfusion hh
      rw [if_neg hg, if_neg h2ne, h2, Option.getD_some, hth, if_pos hlate]
      simp

/-- Claim C2 witness: camera 1, one worker; window opened at time 0,
compliant frame at time 1, non-compliance again at time 2, emission
checked at time 6 with duration round(6 - 2, 1) = 4. -/
theorem c2_compliance_resets_hysteresis_witness :
    alookup (sgDetect true SGState.init (Img.live 0) 1 [⟨0, 0, 50, 100⟩] [1]
        (fun _ => ["helmet"]) 0 true "i" "s").2.2.violation_time
      (1, workerId 1 0) = some 0 ∧
    alookup (sgDetect true
        (sgDetect true SGState.init (Img.live 0) 1 [⟨0, 0, 50, 100⟩] [1]
          (fun _ => ["helmet"]) 0 true "i" "s").2.2
        (Img.live 0) 1 [⟨0, 0, 50, 100⟩] [1] (fun _ => []) 1 true "i" "s").2.2.violation_time
      (1, workerId 1 0) = none ∧
    alookup (sgDetect true
        (sgDetect true
          (sgDetect true SGState.init (Img.live 0) 1 [⟨0, 0, 50, 100⟩] [1]
            (fun _ => ["helmet"]) 0 true "i" "s").2.2
          (Img.live 0) 1 [⟨0, 0, 50, 100⟩] [1] (fun _ => []) 1 true "i" "s").2.2
        (Img.live 0) 1 [⟨0, 0, 50, 100⟩] [1] (fun _ => ["helmet"]) 2 true "i"
        "s").2.2.violation_time (1, workerId 1 0) = some 2 ∧
    ((sgDetect true
        (sgDetect true
          (sgDetect true
            (sgDetect true SGState.init (Img.live 0) 1 [⟨0, 0, 50, 100⟩] [1]
              (fun _ => ["helmet"]) 0 true "i" "s").2.2
            (Img.live 0) 1 [⟨0, 0, 50, 100⟩] [1] (fun _ => []) 1 true "i" "s").2.2
          (Img.live 0) 1 [⟨0, 0, 50, 100⟩] [1] (fun _ => ["helmet"]) 2 true "i" "s").2.2
        (Img.live 0) 1 [⟨0, 0, 50, 100⟩] [1] (fun _ => ["helmet"]) 6 true "i" "s").2.1).map
      (fun v => v.duration) = [pyRound1 (6 - 2)] := by
  exact c2_compliance_resets_hysteresis.2 SGState.init (Img.live 0) 1 ⟨0, 0, 50, 100⟩
    ["helmet"] 0 1 2 6 true "i" "s" (by simp) rfl (by norm_num [SGState.init])

/-- Claim C6 counterexample companion theorem and amendment.  Claim C6
(amended): the ViolationWindow for (camera, workerId) is removed exactly
by frames in which the subject is detected and classified compliant; a
frame in which the subject is not detected at all leaves the whole
detector state unchanged (the window persists), so the continuous
non-compliance invariant holds only across frames in which the subject
is detected. -/
theorem c6_window_removed_only_when_detected :
    (∀ (st : SGState) (frame : Img) (c : Nat) (boxes : List Box) (weights : List ℚ)
        (analyze : Box → List String) (t : ℚ) (sv : Bool) (iso stamp : String),
        validBoxes boxes weights = [] →
        sgDetect true st frame c boxes weights analyze t sv iso stamp = (frame, [], st)) ∧
    (∀ (st : SGState) (frame : Img) (c : Nat) (boxes : List Box) (weights : List ℚ)
        (analyze : Box → List String) (t : ℚ) (sv : Bool) (iso stamp : String)
        (i : Nat) (b : Box),
        (i, b) ∈ (validBoxes boxes weights).enum → analyze b = [] →
        (∀ jb ∈ (validBoxes boxes weights).enum,
           workerId c jb.1 = workerId c i → analyze jb.2 = []) →
        alookup (sgDetect true st frame c boxes weights analyze t sv iso
            stamp).2.2.violation_time (c, workerId c i) = none) := by
  constructor
  · intro st frame c boxes weights analyze t sv iso stamp hempty
    simp [sgDetect, hempty]
  · intro st frame c boxes weights analyze t sv iso stamp i b hmem hcomp hsame
    simp only [sgDetect, if_true]
    exact sgFold_deleted c analyze t sv iso stamp _ (frame, [], st) i b hmem hcomp hsame

/-- Claim C6 witness: the amended theorem applied to a frame with no
detections (state unchanged) and to a detected compliant worker. -/
theorem c6_window_removed_only_when_detected_witness :
    sgDetect true ⟨[((1, "worker_1_0"), 0)], 3, []⟩ (Img.live 0) 1 [] [] (fun _ => []) 1
        true "i" "s"
      = (Img.live 0, [], ⟨[((1, "worker_1_0"), 0)], 3, []⟩) ∧
    alookup (sgDetect true ⟨[((1, workerId 1 0), 0)], 3, []⟩ (Img.live 0) 1
        [⟨0, 0, 50, 100⟩] [1] (fun _ => []) 1 true "i" "s").2.2.violation_time
      (1, workerId 1 0) = none := by
  constructor
  · exact c6_window_removed_only_when_detected.1 ⟨[((1, "worker_1_0"), 0)], 3, []⟩
      (Img.live 0) 1 [] [] (fun _ => []) 1 true "i" "s" rfl
  · exact c6_window_removed_only_when_detected.2 ⟨[((1, workerId 1 0), 0)], 3, []⟩
      (Img.live 0) 1 [⟨0, 0, 50, 100⟩] [1] (fun _ => []) 1 true "i" "s" 0 ⟨0, 0, 50, 100⟩
      (by norm_num [validBoxes]) rfl (fun jb hjb _ => rfl)

/-- Claim C9: screenshot-capture failure is non-fatal per violation.  A
detect pass with every `cv2.imwrite` failing returns the same processed
frame, the same violations except that each record carries an absent
screenshot reference, the same violation windows, and still appends
every emitted record to the violation history. -/
theorem c9_screenshot_failure_nonfatal (hog : Bool) (st : SGState) (frame : Img) (c : Nat)
    (boxes : List Box) (weights : List ℚ) (analyze : Box → List String) (t : ℚ)
    (iso stamp : String) :
    (sgDetect hog st frame c boxes weights analyze t false iso stamp).1
      = (sgDetect hog st frame c boxes weights analyze t true iso stamp).1 ∧
    (sgDetect hog st frame c boxes weights analyze t false iso stamp).2.1
      = ((sgDetect hog st frame c boxes weights analyze t true iso stamp).2.1).map
          clearShot ∧
    (sgDetect hog st frame c boxes weights analyze t false iso stamp).2.2.violation_time
      = (sgDetect hog st frame c boxes weights analyze t true iso
          stamp).2.2.violation_time ∧
    (sgDetect hog st frame c boxes weights analyze t false iso stamp).2.2.violation_history
      = st.violation_history
        ++ (sgDetect hog st frame c boxes weights analyze t false iso stamp).2.1 := by
  refine ⟨?_, ?_, ?_, sgDetect_hist hog st frame c boxes weights analyze t false iso stamp⟩
  all_goals cases hog with
  | false => simp [sgDetect]
  | true =>
      simp only [sgDetect, if_true]
      have := sgFold_saveOk_pair c analyze t iso stamp ((validBoxes boxes weights).enum)
        frame frame [] [] st st rfl (by simp) rfl rfl
      tauto

/-- Claim C4: while a violation persists past the threshold the tracker
re-emits one record on every qualifying frame.  With threshold 3 s and
1 Hz frames showing continuous non-compliance from t = 0 to t = 5, the
passes at t = 0, 1, 2 emit nothing and the passes at t = 3, 4, 5 each
emit exactly one record, with durations 3, 4 and 5. -/
theorem c4_reemits_every_qualifying_frame :
    (c4Run SGState.init 0).2.1 = [] ∧
    (c4Run c4s1 1).2.1 = [] ∧
    (c4Run c4s2 2).2.1 = [] ∧
    (c4Run c4s3 3).2.1 = [c4v 3] ∧
    (c4Run c4s4 4).2.1 = [c4v 4] ∧
    (c4Run c4s5 5).2.1 = [c4v 5] ∧
    (c4v 3).duration = 3 ∧ (c4v 4).duration = 4 ∧ (c4v 5).duration = 5 := by
  have h1 : c4s1 = ⟨[((1, workerId 1 0), 0)], 3, []⟩ := by
    norm_num [c4s1, c4Run, sgDetect, validBoxes, sgStep, SGState.init, alookup, aset, adel]
  have h2 : c4s2 = ⟨[((1, workerId 1 0), 0)], 3, []⟩ := by
    norm_num [c4s2, h1, c4Run, sgDetect, validBoxes, sgStep, alookup, aset, adel]
    decide
  have h3 : c4s3 = ⟨[((1, workerId 1 0), 0)], 3, []⟩ := by
    norm_num [c4s3, h2, c4Run, sgDetect, validBoxes, sgStep, alookup, aset, adel]
    decide
  have h4 : c4s4 = ⟨[((1, workerId 1 0), 0)], 3, [c4v 3]⟩ := by
    norm_num [c4s4, h3, c4Run, sgDetect, validBoxes, sgStep, alookup, aset, adel, c4v]
    decide
  have h5 : c4s5 = ⟨[((1, workerId 1 0), 0)], 3, [c4v 3, c4v 4]⟩ := by
    norm_num [c4s5, h4, c4Run, sgDetect, validBoxes, sgStep, alookup, aset, adel, c4v]
    decide
  refine ⟨?_, ?_, ?_, ?_, ?_, ?_, ?_, ?_, ?_⟩
  · norm_num [c4Run, sgDetect, validBoxes, sgStep, SGState.init, alookup, aset, adel]
  · norm_num [h1, c4Run, sgDetect, validBoxes, sgStep, alookup, aset, adel]
  · norm_num [h2, c4Run, sgDetect, validBoxes, sgStep, alookup, aset, adel]
  · norm_num [h3, c4Run, sgDetect, validBoxes, sgStep, alookup, aset, adel, c4v]
  · norm_num [h4, c4Run, sgDetect, validBoxes, sgStep, alookup, aset, adel, c4v]
  · norm_num [h5, c4Run, sgDetect, validBoxes, sgStep, alookup, aset, adel, c4v]
  · show pyRound1 ((3 : ℕ) : ℚ) = 3
    rw [pyRound1_ofNat]
    norm_num
  · show pyRound1 ((4 : ℕ) : ℚ) = 4
    rw [pyRound1_ofNat]
    norm_num
  · show pyRound1 ((5 : ℕ) : ℚ) = 5
    rw [pyRound1_ofNat]
    norm_num

/-- Claim C8: the Proximity Tracker emission order is deterministic,
worker index ascending then machine index ascending.  `pDetect` is a
pure function of its inputs (two runs on identical inputs are the same
term), and its emitted alert list is a subsequence of the canonical
worker-major, machine-minor enumeration of all candidate pair alerts,
which pins the emission order to subject index ascending and, within a
subject, machine index ascending. -/
theorem c8_deterministic_emission_order (st : ProxState) (frame : Img) (c : Nat)
    (mdet boxes : List Box) (weights : List ℚ) (t : ℚ) (sv : Bool) (iso stamp : String) :
    ((pDetect st frame c mdet boxes weights t sv iso stamp).2.1).Sublist
      (specOrderedAlerts c (validBoxes boxes weights) mdet sv iso stamp) := by
  rcases proxOuterFold_alerts c t sv iso stamp mdet ((validBoxes boxes weights).enum)
      ((detectMachinery st frame c mdet).1, [], (detectMachinery st frame c mdet).2.2)
    with ⟨ext, hext, hsub⟩
  have hp : (pDetect st frame c mdet boxes weights t sv iso stamp).2.1 = [] ++ ext := by
    rw [← hext]
    rfl
  rw [hp]
  simpa [specOrderedAlerts] using hsub

/-- Claim C3: proximity alerts are cooldown de-duplicated per
(camera, worker, machine) key.  For a single qualifying worker/machine
pair starting from the initial detector state (cooldown 5 s): a
detection at t1 (first alert, since the absent key reads as
lastAlertTime 0 and t1 ≥ 5) emits one AlertRecord and sets the key to
t1; a second detection at t2 with t2 - t1 < 5 emits nothing and leaves
the key at t1 (so two detections less than the cooldown apart produce
exactly one record); a third detection at t3 with t3 - t1 ≥ 5 emits
again and sets the key to t3 (two detections at least the cooldown
apart produce two records). -/
theorem c3_proximity_cooldown (frame : Img) (wb mb : Box) (t1 t2 t3 : ℚ) (sv : Bool)
    (iso stamp : String)
    (hq : distSq (centerOf wb) (centerOf mb) < 80 ^ 2)
    (h1 : (5 : ℚ) ≤ t1) (h2 : t2 - t1 < 5) (h3 : (5 : ℚ) ≤ t3 - t1) :
    (pDetect ProxState.init frame 1 [mb] [wb] [1] t1 sv iso stamp).2.1
      = [mkProxAlert 1 0 wb 0 mb sv iso stamp] ∧
    alookup (pDetect ProxState.init frame 1 [mb] [wb] [1] t1 sv iso
        stamp).2.2.alert_history (1, proxKey 1 0 0) = some t1 ∧
    (pDetect (pDetect ProxState.init frame 1 [mb] [wb] [1] t1 sv iso stamp).2.2
        frame 1 [mb] [wb] [1] t2 sv iso stamp).2.1 = [] ∧
    alookup (pDetect (pDetect ProxState.init frame 1 [mb] [wb] [1] t1 sv iso stamp).2.2
        frame 1 [mb] [wb] [1] t2 sv iso stamp).2.2.alert_history
      (1, proxKey 1 0 0) = some t1 ∧
    (pDetect (pDetect (pDetect ProxState.init frame 1 [mb] [wb] [1] t1 sv iso stamp).2.2
        frame 1 [mb] [wb] [1] t2 sv iso stamp).2.2
        frame 1 [mb] [wb] [1] t3 sv iso stamp).2.1
      = [mkProxAlert 1 0 wb 0 mb sv iso stamp] ∧
    alookup (pDetect (pDetect (pDetect ProxState.init frame 1 [mb] [wb] [1] t1 sv iso
        stamp).2.2 frame 1 [mb] [wb] [1] t2 sv iso stamp).2.2
        frame 1 [mb] [wb] [1] t3 sv iso stamp).2.2.alert_history
      (1, proxKey 1 0 0) = some t3 := by
  have hq6 : distSq (centerOf wb) (centerOf mb) < 6400 := by
    have h80 : ((80 : ℤ)) ^ 2 = 6400 := by norm_num
    rw [h80] at hq
    exact hq
  have hS1 : (pDetect ProxState.init frame 1 [mb] [wb] [1] t1 sv iso stamp).2.2
      = { proximity_threshold := 80, machinery_positions := [(1, [mb])],
          alert_history := [((1, proxKey 1 0 0), t1)], alert_cooldown := 5,
          violation_history := [mkProxAlert 1 0 wb 0 mb sv iso stamp] } := by
    rw [pDetect_single, proxInner_eq]
    simp [detectMachinery_st, ProxState.init, alookup, aset, adel, hq6, h1]
  have hA1 : (pDetect ProxState.init frame 1 [mb] [wb] [1] t1 sv iso stamp).2.1
      = [mkProxAlert 1 0 wb 0 mb sv iso stamp] := by
    rw [pDetect_single, proxInner_eq]
    simp [detectMachinery_st, ProxState.init, alookup, hq6, h1]
  have hL1 : alookup (pDetect ProxState.init frame 1 [mb] [wb] [1] t1 sv iso
      stamp).2.2.alert_history (1, proxKey 1 0 0) = some t1 := by
    rw [hS1]
    simp [alookup]
  have hnle2 : ¬ (5 : ℚ) ≤ t2 - t1 := not_le.mpr h2
  have hS2 : (pDetect (pDetect ProxState.init frame 1 [mb] [wb] [1] t1 sv iso stamp).2.2
      frame 1 [mb] [wb] [1] t2 sv iso stamp).2.2
      = { proximity_threshold := 80, machinery_positions := [(1, [mb])],
          alert_history := [((1, proxKey 1 0 0), t1)], alert_cooldown := 5,
          violation_history := [mkProxAlert 1 0 wb 0 mb sv iso stamp] } := by
    rw [hS1, pDetect_single, proxInner_eq]
    simp [detectMachinery_st, alookup, aset, adel, hq6, hnle2]
  have hA2 : (pDetect (pDetect ProxState.init frame 1 [mb] [wb] [1] t1 sv iso stamp).2.2
      frame 1 [mb] [wb] [1] t2 sv iso stamp).2.1 = [] := by
    rw [hS1, pDetect_single, proxInner_eq]
    simp [detectMachinery_st, alookup, hq6, hnle2]
  have hL2 : alookup (pDetect (pDetect ProxState.init frame 1 [mb] [wb] [1] t1 sv iso
      stamp).2.2 frame 1 [mb] [wb] [1] t2 sv iso stamp).2.2.alert_history
      (1, proxKey 1 0 0) = some t1 := by
    rw [hS2]
    simp [alookup]
  have hA3 : (pDetect (pDetect (pDetect ProxState.init frame 1 [mb] [wb] [1] t1 sv iso
      stamp).2.2 frame 1 [mb] [wb] [1] t2 sv iso stamp).2.2
      frame 1 [mb] [wb] [1] t3 sv iso stamp).2.1
      = [mkProxAlert 1 0 wb 0 mb sv iso stamp] := by
    rw [hS2, pDetect_single, proxInner_eq]
    simp [detectMachinery_st, alookup, hq6, h3]
  have hL3 : alookup (pDetect (pDetect (pDetect ProxState.init frame 1 [mb] [wb] [1] t1
      sv iso stamp).2.2 frame 1 [mb] [wb] [1] t2 sv iso stamp).2.2
      frame 1 [mb] [wb] [1] t3 sv iso stamp).2.2.alert_history
      (1, proxKey 1 0 0) = some t3 := by
    rw [hS2, pDetect_single, proxInner_eq]
    simp [detectMachinery_st, alookup, aset, adel, hq6, h3]
  exact ⟨hA1, hL1, hA2, hL2, hA3, hL3⟩

/-- Claim C3 witness: worker box (0,0,10,10) and machine box
(20,0,10,10) are 20 pixels apart (squared distance 400 < 6400);
detections at times 5, 8 and 11. -/
theorem c3_proximity_cooldown_witness :
    (pDetect ProxState.init (Img.live 0) 1 [⟨20, 0, 10, 10⟩] [⟨0, 0, 10, 10⟩] [1] 5 true
        "i" "s").2.1
      = [mkProxAlert 1 0 ⟨0, 0, 10, 10⟩ 0 ⟨20, 0, 10, 10⟩ true "i" "s"] ∧
    alookup (pDetect ProxState.init (Img.live 0) 1 [⟨20, 0, 10, 10⟩] [⟨0, 0, 10, 10⟩] [1]
        5 true "i" "s").2.2.alert_history (1, proxKey 1 0 0) = some 5 ∧
    (pDetect (pDetect ProxState.init (Img.live 0) 1 [⟨20, 0, 10, 10⟩] [⟨0, 0, 10, 10⟩]
        [1] 5 true "i" "s").2.2 (Img.live 0) 1 [⟨20, 0, 10, 10⟩] [⟨0, 0, 10, 10⟩] [1] 8
        true "i" "s").2.1 = [] ∧
    alookup (pDetect (pDetect ProxState.init (Img.live 0) 1 [⟨20, 0, 10, 10⟩]
        [⟨0, 0, 10, 10⟩] [1] 5 true "i" "s").2.2 (Img.live 0) 1 [⟨20, 0, 10, 10⟩]
        [⟨0, 0, 10, 10⟩] [1] 8 true "i" "s").2.2.alert_history
      (1, proxKey 1 0 0) = some 5 ∧
    (pDetect (pDetect (pDetect ProxState.init (Img.live 0) 1 [⟨20, 0, 10, 10⟩]
        [⟨0, 0, 10, 10⟩] [1] 5 true "i" "s").2.2 (Img.live 0) 1 [⟨20, 0, 10, 10⟩]
        [⟨0, 0, 10, 10⟩] [1] 8 true "i" "s").2.2 (Img.live 0) 1 [⟨20, 0, 10, 10⟩]
        [⟨0, 0, 10, 10⟩] [1] 11 true "i" "s").2.1
      = [mkProxAlert 1 0 ⟨0, 0, 10, 10⟩ 0 ⟨20, 0, 10, 10⟩ true "i" "s"] ∧
    alookup (pDetect (pDetect (pDetect ProxState.init (Img.live 0) 1 [⟨20, 0, 10, 10⟩]
        [⟨0, 0, 10, 10⟩] [1] 5 true "i" "s").2.2 (Img.live 0) 1 [⟨20, 0, 10, 10⟩]
        [⟨0, 0, 10, 10⟩] [1] 8 true "i" "s").2.2 (Img.live 0) 1 [⟨20, 0, 10, 10⟩]
        [⟨0, 0, 10, 10⟩] [1] 11 true "i" "s").2.2.alert_history
      (1, proxKey 1 0 0) = some 11 := by
  exact c3_proximity_cooldown (Img.live 0) ⟨0, 0, 10, 10⟩ ⟨20, 0, 10, 10⟩ 5 8 11 true
    "i" "s" (by decide) (by norm_num) (by norm_num) (by norm_num)

end SiteMonitor
